import Mathlib

/-!
Organizations service of the GitHub client (`orgs.go`): a shallow embedding of
`OrganizationsService` and its ten operations, and the properties of the requests
they build, the calls they make and the values they return.

* Go strings are Lean `String`s, Go `int` is `Int` (no arithmetic is done on it).
* A pointer `*T` is `Option T` (`none` is the nil pointer); a slice `[]T` is
  `Option (List T)` (`none` is the nil slice).
* `fmt.Sprintf` is modelled for the `%v` verb, the only verb `orgs.go` uses; a
  percent sign followed by anything else is outside the model and is copied.
* The client (`s.client`, with `NewRequest` and `Do`) is declared outside `orgs.go`;
  it is a parameter of every operation.  Its two methods may depend on and change an
  arbitrary external `World`.  `Do` receives the current contents of the decode
  target and returns the contents it leaves behind.
* Every call of `NewRequest` and of `Do` is appended to a trace (ghost state), so
  that the number and the order of the collaborator calls can be stated.
-/

set_option autoImplicit false

/-! ## Data model -/

/-- Go slice `[]T`: `none` is the nil slice. -/
abbrev Slice (α : Type) : Type := Option (List α)

/-- The struct `Organization` of `orgs.go`. -/
structure Organization where
  Login : String
  ID : Int
  URL : String
  AvatarURL : String
  Location : String
deriving DecidableEq, Repr

/-- The struct `Team` of `orgs.go`. -/
structure Team where
  ID : Int
  Name : String
  URL : String
  Slug : String
  Permission : String
  MembersCount : Int
  ReposCount : Int
deriving DecidableEq, Repr

/-- Contents of `new(Organization)`: every field is the zero value of its type. -/
def Organization.zero : Organization := ⟨"", 0, "", "", ""⟩

/-! ## `fmt.Sprintf` with the `%v` verb -/

/-- An operand of `fmt.Sprintf`; `orgs.go` passes strings and ints only. -/
inductive Arg where
  | string (s : String)
  | int (i : Int)
deriving DecidableEq, Repr

/-- Decimal digits of a Go `int`, with a leading minus sign for negative values. -/
def formatInt : Int → String
  | Int.ofNat n => Nat.repr n
  | Int.negSucc n => "-" ++ Nat.repr (n + 1)

/-- What `%v` prints for an operand: a string as it is, an int in decimal. -/
def Arg.format : Arg → String
  | Arg.string s => s
  | Arg.int i => formatInt i

/-- The Go type name of an operand, used in the `%!(EXTRA ...)` diagnostic. -/
def Arg.typeName : Arg → String
  | Arg.string _ => "string"
  | Arg.int _ => "int"

/-- The `type=value` items `fmt` lists for operands that no verb consumed. -/
def Sprintf.extra : List Arg → List Char
  | [] => []
  | [a] => (a.typeName ++ "=" ++ a.format).data
  | a :: b :: rest => (a.typeName ++ "=" ++ a.format ++ ", ").data ++ Sprintf.extra (b :: rest)

/-- Scan of the format: `%v` consumes the next operand (or prints `%!v(MISSING)`),
every other character is copied; operands left over at the end are reported. -/
def Sprintf.scan : List Char → List Arg → List Char
  | [], [] => []
  | [], a :: args => "%!(EXTRA ".data ++ Sprintf.extra (a :: args) ++ [')']
  | [c], args => c :: Sprintf.scan [] args
  | c :: d :: rest, args =>
    if c = '%' ∧ d = 'v' then
      match args with
      | a :: args => a.format.data ++ Sprintf.scan rest args
      | [] => "%!v(MISSING)".data ++ Sprintf.scan rest []
    else c :: Sprintf.scan (d :: rest) args

/-- Model of `fmt.Sprintf` for formats whose only verb is `%v`: the characters of
the format are Unicode characters here and bytes in Go, which agrees on `%` and `v`. -/
def Sprintf (format : String) (args : List Arg) : String :=
  ⟨Sprintf.scan format.data args⟩

/-! ## The client collaborator -/

/-- The `body` argument of `NewRequest`, an empty interface: the untyped `nil`, or an
`*Organization` (itself possibly a nil pointer). -/
inductive Body where
  | nil
  | organization (p : Option Organization)
deriving DecidableEq, Repr

/-- The dynamic type of the argument `v` of `Do`, an empty interface: the untyped
`nil`, or a pointer to one of four types. -/
inductive TargetKind where
  | nil
  | organizations
  | organization
  | users
  | teams
deriving DecidableEq, Repr

/-- What the decode target points to: nothing for `nil`, a slice for
`*[]Organization`, `*[]User`, `*[]Team`, a struct for `*Organization`. -/
def TargetKind.Pointee (User : Type) : TargetKind → Type
  | TargetKind.nil => Unit
  | TargetKind.organizations => Slice Organization
  | TargetKind.organization => Organization
  | TargetKind.users => Slice User
  | TargetKind.teams => Slice Team

/-- The client: `NewRequest(method, urlStr, body)` returns a request and an error,
`Do(req, v)` returns a response and an error and may write through `v`. -/
structure Client (Request Response Error World User : Type) where
  NewRequest : String → String → Body → World → (Request × Option Error) × World
  Do : Request → (k : TargetKind) → TargetKind.Pointee User k → World →
    (Response × Option Error) × TargetKind.Pointee User k × World

/-- One call of a client method, with the arguments it was given. -/
inductive Call (Request User : Type) where
  | newRequest (method url : String) (body : Body)
  | doRequest (req : Request) (k : TargetKind) (v : TargetKind.Pointee User k)

/-- The external world together with the trace of client calls made so far. -/
structure St (Request World User : Type) where
  world : World
  trace : List (Call Request User)

section Service

variable {Request Response Error World User : Type}

/-- The call `s.client.NewRequest(method, url, body)`, recorded in the trace. -/
def Client.newRequest (c : Client Request Response Error World User)
    (method url : String) (body : Body) (st : St Request World User) :
    (Request × Option Error) × St Request World User :=
  let r := c.NewRequest method url body st.world
  (r.1, ⟨r.2, st.trace ++ [Call.newRequest method url body]⟩)

/-- The call `s.client.Do(req, v)`, recorded in the trace; the second component
is what `v` points to after the call. -/
def Client.doRequest (c : Client Request Response Error World User)
    (req : Request) (k : TargetKind) (v : TargetKind.Pointee User k)
    (st : St Request World User) :
    (Response × Option Error) × TargetKind.Pointee User k × St Request World User :=
  let r := c.Do req k v st.world
  (r.1, r.2.1, ⟨r.2.2, st.trace ++ [Call.doRequest req k v]⟩)

/-! ## The operations of `OrganizationsService` -/

/-- Embeds `func (s *OrganizationsService) List(user string) ([]Organization, error)` -/
def OrganizationsService.List (c : Client Request Response Error World User)
    (user : String) (st : St Request World User) :
    (Slice Organization × Option Error) × St Request World User :=
  let url := if user ≠ "" then Sprintf "users/%v/orgs" [Arg.string user] else "user/orgs"
  match c.newRequest "GET" url Body.nil st with
  | ((_, some err), st) => ((none, some err), st)
  | ((req, none), st) =>
    let orgs : Slice Organization := none
    match c.doRequest req TargetKind.organizations orgs st with
    | ((_, err), orgs, st) => ((orgs, err), st)

/-- Embeds `func (s *OrganizationsService) Get(org string) (*Organization, error)` -/
def OrganizationsService.Get (c : Client Request Response Error World User)
    (org : String) (st : St Request World User) :
    (Option Organization × Option Error) × St Request World User :=
  let url := Sprintf "orgs/%v" [Arg.string org]
  match c.newRequest "GET" url Body.nil st with
  | ((_, some err), st) => ((none, some err), st)
  | ((req, none), st) =>
    let organization := Organization.zero
    match c.doRequest req TargetKind.organization organization st with
    | ((_, err), organization, st) => ((some organization, err), st)

/-- Embeds `func (s *OrganizationsService) Edit(name string, org *Organization) (*Organization, error)` -/
def OrganizationsService.Edit (c : Client Request Response Error World User)
    (name : String) (org : Option Organization) (st : St Request World User) :
    (Option Organization × Option Error) × St Request World User :=
  let url := Sprintf "orgs/%v" [Arg.string name]
  match c.newRequest "PATCH" url (Body.organization org) st with
  | ((_, some err), st) => ((none, some err), st)
  | ((req, none), st) =>
    let updatedOrg := Organization.zero
    match c.doRequest req TargetKind.organization updatedOrg st with
    | ((_, err), updatedOrg, st) => ((some updatedOrg, err), st)

/-- Embeds `func (s *OrganizationsService) ListMembers(org string) ([]User, error)` -/
def OrganizationsService.ListMembers (c : Client Request Response Error World User)
    (org : String) (st : St Request World User) :
    (Slice User × Option Error) × St Request World User :=
  let url := Sprintf "orgs/%v/members" [Arg.string org]
  match c.newRequest "GET" url Body.nil st with
  | ((_, some err), st) => ((none, some err), st)
  | ((req, none), st) =>
    let members : Slice User := none
    match c.doRequest req TargetKind.users members st with
    | ((_, err), members, st) => ((members, err), st)

/-- Embeds `func (s *OrganizationsService) ListPublicMembers(org string) ([]User, error)` -/
def OrganizationsService.ListPublicMembers (c : Client Request Response Error World User)
    (org : String) (st : St Request World User) :
    (Slice User × Option Error) × St Request World User :=
  let url := Sprintf "orgs/%v/public_members" [Arg.string org]
  match c.newRequest "GET" url Body.nil st with
  | ((_, some err), st) => ((none, some err), st)
  | ((req, none), st) =>
    let members : Slice User := none
    match c.doRequest req TargetKind.users members st with
    | ((_, err), members, st) => ((members, err), st)

/-- Embeds `func (s *OrganizationsService) ListTeams(org string) ([]Team, error)` -/
def OrganizationsService.ListTeams (c : Client Request Response Error World User)
    (org : String) (st : St Request World User) :
    (Slice Team × Option Error) × St Request World User :=
  let url := Sprintf "orgs/%v/teams" [Arg.string org]
  match c.newRequest "GET" url Body.nil st with
  | ((_, some err), st) => ((none, some err), st)
  | ((req, none), st) =>
    let teams : Slice Team := none
    match c.doRequest req TargetKind.teams teams st with
    | ((_, err), teams, st) => ((teams, err), st)

/-- Embeds `func (s *OrganizationsService) AddTeamMember(team int, user string) error` -/
def OrganizationsService.AddTeamMember (c : Client Request Response Error World User)
    (team : Int) (user : String) (st : St Request World User) :
    Option Error × St Request World User :=
  let url := Sprintf "teams/%v/members/%v" [Arg.int team, Arg.string user]
  match c.newRequest "PUT" url Body.nil st with
  | ((_, some err), st) => (some err, st)
  | ((req, none), st) =>
    match c.doRequest req TargetKind.nil () st with
    | ((_, err), _, st) => (err, st)

/-- Embeds `func (s *OrganizationsService) RemoveTeamMember(team int, user string) error` -/
def OrganizationsService.RemoveTeamMember (c : Client Request Response Error World User)
    (team : Int) (user : String) (st : St Request World User) :
    Option Error × St Request World User :=
  let url := Sprintf "teams/%v/members/%v" [Arg.int team, Arg.string user]
  match c.newRequest "DELETE" url Body.nil st with
  | ((_, some err), st) => (some err, st)
  | ((req, none), st) =>
    match c.doRequest req TargetKind.nil () st with
    | ((_, err), _, st) => (err, st)

/-- Embeds `func (s *OrganizationsService) PublicizeMembership(org, user string) error` -/
def OrganizationsService.PublicizeMembership (c : Client Request Response Error World User)
    (org user : String) (st : St Request World User) :
    Option Error × St Request World User :=
  let url := Sprintf "orgs/%v/public_members/%v" [Arg.string org, Arg.string user]
  match c.newRequest "PUT" url Body.nil st with
  | ((_, some err), st) => (some err, st)
  | ((req, none), st) =>
    match c.doRequest req TargetKind.nil () st with
    | ((_, err), _, st) => (err, st)

/-- Embeds `func (s *OrganizationsService) ConcealMembership(org, user string) error` -/
def OrganizationsService.ConcealMembership (c : Client Request Response Error World User)
    (org user : String) (st : St Request World User) :
    Option Error × St Request World User :=
  let url := Sprintf "orgs/%v/public_members/%v" [Arg.string org, Arg.string user]
  match c.newRequest "DELETE" url Body.nil st with
  | ((_, some err), st) => (some err, st)
  | ((req, none), st) =>
    match c.doRequest req TargetKind.nil () st with
    | ((_, err), _, st) => (err, st)

/-! ## Reading the trace -/

/-- The requests built in a list of calls: verb, path and body of each
`NewRequest` call, in order. -/
def requestsBuilt : List (Call Request User) → List (String × String × Body)
  | [] => []
  | Call.newRequest m p b :: t => (m, p, b) :: requestsBuilt t
  | Call.doRequest _ _ _ :: t => requestsBuilt t

/-- The decode targets in a list of calls: the dynamic type of the target of each
`Do` call, in order. -/
def doTargets : List (Call Request User) → List TargetKind
  | [] => []
  | Call.newRequest _ _ _ :: t => doTargets t
  | Call.doRequest _ k _ :: t => k :: doTargets t

/-- Between `st` and `st1` exactly one request was built, with this verb, path
and body. -/
def Builds (st st1 : St Request World User) (method url : String) (body : Body) : Prop :=
  ∃ calls, st1.trace = st.trace ++ calls ∧ requestsBuilt calls = [(method, url, body)]

/-- Success path of an operation that builds its request from `method`, `url`, `body`
and executes it with a decode target of type `k` holding `v`; `out` is the error the
operation returned and the state it left.  Whenever `NewRequest` reports no error, the
calls the operation made are that `NewRequest` call followed by exactly one `Do` call,
on the request `NewRequest` returned, and the operation returned the error of that
`Do` call. -/
def ExecutesOnce (c : Client Request Response Error World User)
    (method url : String) (body : Body) (k : TargetKind) (v : TargetKind.Pointee User k)
    (st : St Request World User) (out : Option Error × St Request World User) : Prop :=
  ∀ req w, c.NewRequest method url body st.world = ((req, none), w) →
    out.2.trace = st.trace ++ [Call.newRequest method url body, Call.doRequest req k v] ∧
    out.1 = (c.Do req k v w).1.2

/-- Failure path of an operation that builds its request from `method`, `url`, `body`;
`out` is the error the operation returned and the state it left, `nilResult` says that
the result returned next to the error is nil.  Whenever `NewRequest` reports the error
`e`, the operation returned `e`, the only call it made is that `NewRequest` call (no
`Do` call, the world is as `NewRequest` left it), and the result is nil. -/
def StopsAtRequestError (c : Client Request Response Error World User)
    (method url : String) (body : Body)
    (st : St Request World User) (out : Option Error × St Request World User)
    (nilResult : Prop) : Prop :=
  ∀ req e w, c.NewRequest method url body st.world = ((req, some e), w) →
    out.1 = some e ∧
    out.2.trace = st.trace ++ [Call.newRequest method url body] ∧
    out.2.world = w ∧
    nilResult

/-- Between `st` and `st1` every `Do` call was given the nil decode target. -/
def NilTargetOnly (st st1 : St Request World User) : Prop :=
  ∃ calls, st1.trace = st.trace ++ calls ∧ ∀ k ∈ doTargets calls, k = TargetKind.nil

/-! ## A concrete client -/

/-- What the sample server answers for each kind of decode target. -/
def sampleDecode : (k : TargetKind) → TargetKind.Pointee String k
  | TargetKind.nil => ()
  | TargetKind.organizations => some [⟨"acme", 7, "https://api/orgs/acme", "", "Paris"⟩]
  | TargetKind.organization => ⟨"acme", 7, "https://api/orgs/acme", "", "Paris"⟩
  | TargetKind.users => some ["bob", "eve"]
  | TargetKind.teams => some [⟨42, "core", "", "core", "push", 2, 0⟩]

/-- A small client.  A request is the verb and the path joined by a blank;
`NewRequest` rejects a path that contains a percent sign.  The world is the number of
requests the server will still answer: `Do` fails with the target untouched when it
is zero, and otherwise decodes the sample answer into the target. -/
def sampleClient : Client String Unit String Nat String :=
  ⟨fun method url _ w =>
      ((method ++ " " ++ url, if url.data.contains '%' then some "invalid URL escape" else none), w),
   fun _ k v w =>
      match w with
      | 0 => (((), some "connection refused"), v, 0)
      | n + 1 => (((), none), sampleDecode k, n)⟩

end Service

/-! ## Paths produced by `Sprintf` -/

theorem sprintf_users_orgs (u : String) :
    Sprintf "users/%v/orgs" [Arg.string u] = "users/" ++ u ++ "/orgs" := by
  apply String.ext
  simp [Sprintf, Sprintf.scan, Arg.format]

theorem sprintf_orgs (o : String) :
    Sprintf "orgs/%v" [Arg.string o] = "orgs/" ++ o := by
  apply String.ext
  simp [Sprintf, Sprintf.scan, Arg.format]

theorem sprintf_orgs_members (o : String) :
    Sprintf "orgs/%v/members" [Arg.string o] = "orgs/" ++ o ++ "/members" := by
  apply String.ext
  simp [Sprintf, Sprintf.scan, Arg.format]

theorem sprintf_orgs_public_members (o : String) :
    Sprintf "orgs/%v/public_members" [Arg.string o] = "orgs/" ++ o ++ "/public_members" := by
  apply String.ext
  simp [Sprintf, Sprintf.scan, Arg.format]

theorem sprintf_orgs_teams (o : String) :
    Sprintf "orgs/%v/teams" [Arg.string o] = "orgs/" ++ o ++ "/teams" := by
  apply String.ext
  simp [Sprintf, Sprintf.scan, Arg.format]

theorem sprintf_teams_members (team : Int) (user : String) :
    Sprintf "teams/%v/members/%v" [Arg.int team, Arg.string user]
      = "teams/" ++ formatInt team ++ "/members/" ++ user := by
  apply String.ext
  simp [Sprintf, Sprintf.scan, Arg.format]

theorem sprintf_orgs_public_members_user (o user : String) :
    Sprintf "orgs/%v/public_members/%v" [Arg.string o, Arg.string user]
      = "orgs/" ++ o ++ "/public_members/" ++ user := by
  apply String.ext
  simp [Sprintf, Sprintf.scan, Arg.format]

/-! ## Paths that can never coincide -/

theorem members_ne_public_members (o1 o2 : String) :
    "orgs/" ++ o1 ++ "/members" ≠ "orgs/" ++ o2 ++ "/public_members" := by
  intro h
  have h1 := congrArg String.data h
  have h2 : o1.data ++ "/members".data = (o2.data ++ "/public".data) ++ "_members".data := by
    simpa [String.data_append, List.append_assoc] using h1
  have h3 := (List.append_inj' h2 rfl).2
  exact absurd h3 (by decide)

theorem users_orgs_ne_user_orgs (u : String) :
    "users/" ++ u ++ "/orgs" ≠ "user/orgs" := by
  intro h
  have h1 := congrArg String.data h
  simp [String.data_append] at h1

section Proofs

variable {Request Response Error World User : Type}

/-! ## Unfolding of each operation on the two outcomes of `NewRequest` -/

theorem list_fail (c : Client Request Response Error World User) (u : String)
    (st : St Request World User) (req : Request) (e : Error) (w : World)
    (h : c.NewRequest "GET" (if u = "" then "user/orgs" else "users/" ++ u ++ "/orgs") Body.nil st.world = ((req, some e), w)) :
    OrganizationsService.List c u st =
      ((none, some e), ⟨w, st.trace ++ [Call.newRequest "GET" (if u = "" then "user/orgs" else "users/" ++ u ++ "/orgs") Body.nil]⟩) := by
  simp [OrganizationsService.List, Client.newRequest, Client.doRequest, sprintf_users_orgs, h]

theorem list_ok (c : Client Request Response Error World User) (u : String)
    (st : St Request World User) (req : Request) (w : World)
    (h : c.NewRequest "GET" (if u = "" then "user/orgs" else "users/" ++ u ++ "/orgs") Body.nil st.world = ((req, none), w)) :
    OrganizationsService.List c u st =
      (((c.Do req TargetKind.organizations none w).2.1, (c.Do req TargetKind.organizations none w).1.2),
        ⟨(c.Do req TargetKind.organizations none w).2.2,
          st.trace ++ [Call.newRequest "GET" (if u = "" then "user/orgs" else "users/" ++ u ++ "/orgs") Body.nil,
            Call.doRequest req TargetKind.organizations none]⟩) := by
  simp [OrganizationsService.List, Client.newRequest, Client.doRequest, sprintf_users_orgs, h]

theorem get_fail (c : Client Request Response Error World User) (org : String)
    (st : St Request World User) (req : Request) (e : Error) (w : World)
    (h : c.NewRequest "GET" ("orgs/" ++ org) Body.nil st.world = ((req, some e), w)) :
    OrganizationsService.Get c org st =
      ((none, some e), ⟨w, st.trace ++ [Call.newRequest "GET" ("orgs/" ++ org) Body.nil]⟩) := by
  simp [OrganizationsService.Get, Client.newRequest, Client.doRequest, sprintf_orgs, h]

theorem get_ok (c : Client Request Response Error World User) (org : String)
    (st : St Request World User) (req : Request) (w : World)
    (h : c.NewRequest "GET" ("orgs/" ++ org) Body.nil st.world = ((req, none), w)) :
    OrganizationsService.Get c org st =
      ((some (c.Do req TargetKind.organization Organization.zero w).2.1, (c.Do req TargetKind.organization Organization.zero w).1.2),
        ⟨(c.Do req TargetKind.organization Organization.zero w).2.2,
          st.trace ++ [Call.newRequest "GET" ("orgs/" ++ org) Body.nil,
            Call.doRequest req TargetKind.organization Organization.zero]⟩) := by
  simp [OrganizationsService.Get, Client.newRequest, Client.doRequest, sprintf_orgs, h]

theorem edit_fail (c : Client Request Response Error World User) (name : String) (org : Option Organization)
    (st : St Request World User) (req : Request) (e : Error) (w : World)
    (h : c.NewRequest "PATCH" ("orgs/" ++ name) (Body.organization org) st.world = ((req, some e), w)) :
    OrganizationsService.Edit c name org st =
      ((none, some e), ⟨w, st.trace ++ [Call.newRequest "PATCH" ("orgs/" ++ name) (Body.organization org)]⟩) := by
  simp [OrganizationsService.Edit, Client.newRequest, Client.doRequest, sprintf_orgs, h]

theorem edit_ok (c : Client Request Response Error World User) (name : String) (org : Option Organization)
    (st : St Request World User) (req : Request) (w : World)
    (h : c.NewRequest "PATCH" ("orgs/" ++ name) (Body.organization org) st.world = ((req, none), w)) :
    OrganizationsService.Edit c name org st =
      ((some (c.Do req TargetKind.organization Organization.zero w).2.1, (c.Do req TargetKind.organization Organization.zero w).1.2),
        ⟨(c.Do req TargetKind.organization Organization.zero w).2.2,
          st.trace ++ [Call.newRequest "PATCH" ("orgs/" ++ name) (Body.organization org),
            Call.doRequest req TargetKind.organization Organization.zero]⟩) := by
  simp [OrganizationsService.Edit, Client.newRequest, Client.doRequest, sprintf_orgs, h]

theorem listMembers_fail (c : Client Request Response Error World User) (org : String)
    (st : St Request World User) (req : Request) (e : Error) (w : World)
    (h : c.NewRequest "GET" ("orgs/" ++ org ++ "/members") Body.nil st.world = ((req, some e), w)) :
    OrganizationsService.ListMembers c org st =
      ((none, some e), ⟨w, st.trace ++ [Call.newRequest "GET" ("orgs/" ++ org ++ "/members") Body.nil]⟩) := by
  simp [OrganizationsService.ListMembers, Client.newRequest, Client.doRequest, sprintf_orgs_members, h]

theorem listMembers_ok (c : Client Request Response Error World User) (org : String)
    (st : St Request World User) (req : Request) (w : World)
    (h : c.NewRequest "GET" ("orgs/" ++ org ++ "/members") Body.nil st.world = ((req, none), w)) :
    OrganizationsService.ListMembers c org st =
      (((c.Do req TargetKind.users none w).2.1, (c.Do req TargetKind.users none w).1.2),
        ⟨(c.Do req TargetKind.users none w).2.2,
          st.trace ++ [Call.newRequest "GET" ("orgs/" ++ org ++ "/members") Body.nil,
            Call.doRequest req TargetKind.users none]⟩) := by
  simp [OrganizationsService.ListMembers, Client.newRequest, Client.doRequest, sprintf_orgs_members, h]

theorem listPublicMembers_fail (c : Client Request Response Error World User) (org : String)
    (st : St Request World User) (req : Request) (e : Error) (w : World)
    (h : c.NewRequest "GET" ("orgs/" ++ org ++ "/public_members") Body.nil st.world = ((req, some e), w)) :
    OrganizationsService.ListPublicMembers c org st =
      ((none, some e), ⟨w, st.trace ++ [Call.newRequest "GET" ("orgs/" ++ org ++ "/public_members") Body.nil]⟩) := by
  simp [OrganizationsService.ListPublicMembers, Client.newRequest, Client.doRequest, sprintf_orgs_public_members, h]

theorem listPublicMembers_ok (c : Client Request Response Error World User) (org : String)
    (st : St Request World User) (req : Request) (w : World)
    (h : c.NewRequest "GET" ("orgs/" ++ org ++ "/public_members") Body.nil st.world = ((req, none), w)) :
    OrganizationsService.ListPublicMembers c org st =
      (((c.Do req TargetKind.users none w).2.1, (c.Do req TargetKind.users none w).1.2),
        ⟨(c.Do req TargetKind.users none w).2.2,
          st.trace ++ [Call.newRequest "GET" ("orgs/" ++ org ++ "/public_members") Body.nil,
            Call.doRequest req TargetKind.users none]⟩) := by
  simp [OrganizationsService.ListPublicMembers, Client.newRequest, Client.doRequest, sprintf_orgs_public_members, h]

theorem listTeams_fail (c : Client Request Response Error World User) (org : String)
    (st : St Request World User) (req : Request) (e : Error) (w : World)
    (h : c.NewRequest "GET" ("orgs/" ++ org ++ "/teams") Body.nil st.world = ((req, some e), w)) :
    OrganizationsService.ListTeams c org st =
      ((none, some e), ⟨w, st.trace ++ [Call.newRequest "GET" ("orgs/" ++ org ++ "/teams") Body.nil]⟩) := by
  simp [OrganizationsService.ListTeams, Client.newRequest, Client.doRequest, sprintf_orgs_teams, h]

theorem listTeams_ok (c : Client Request Response Error World User) (org : String)
    (st : St Request World User) (req : Request) (w : World)
    (h : c.NewRequest "GET" ("orgs/" ++ org ++ "/teams") Body.nil st.world = ((req, none), w)) :
    OrganizationsService.ListTeams c org st =
      (((c.Do req TargetKind.teams none w).2.1, (c.Do req TargetKind.teams none w).1.2),
        ⟨(c.Do req TargetKind.teams none w).2.2,
          st.trace ++ [Call.newRequest "GET" ("orgs/" ++ org ++ "/teams") Body.nil,
            Call.doRequest req TargetKind.teams none]⟩) := by
  simp [OrganizationsService.ListTeams, Client.newRequest, Client.doRequest, sprintf_orgs_teams, h]

theorem addTeamMember_fail (c : Client Request Response Error World User) (team : Int) (user : String)
    (st : St Request World User) (req : Request) (e : Error) (w : World)
    (h : c.NewRequest "PUT" ("teams/" ++ formatInt team ++ "/members/" ++ user) Body.nil st.world = ((req, some e), w)) :
    OrganizationsService.AddTeamMember c team user st =
      (some e, ⟨w, st.trace ++ [Call.newRequest "PUT" ("teams/" ++ formatInt team ++ "/members/" ++ user) Body.nil]⟩) := by
  simp [OrganizationsService.AddTeamMember, Client.newRequest, Client.doRequest, sprintf_teams_members, h]

theorem addTeamMember_ok (c : Client Request Response Error World User) (team : Int) (user : String)
    (st : St Request World User) (req : Request) (w : World)
    (h : c.NewRequest "PUT" ("teams/" ++ formatInt team ++ "/members/" ++ user) Body.nil st.world = ((req, none), w)) :
    OrganizationsService.AddTeamMember c team user st =
      ((c.Do req TargetKind.nil () w).1.2,
        ⟨(c.Do req TargetKind.nil () w).2.2,
          st.trace ++ [Call.newRequest "PUT" ("teams/" ++ formatInt team ++ "/members/" ++ user) Body.nil,
            Call.doRequest req TargetKind.nil ()]⟩) := by
  simp [OrganizationsService.AddTeamMember, Client.newRequest, Client.doRequest, sprintf_teams_members, h]

theorem removeTeamMember_fail (c : Client Request Response Error World User) (team : Int) (user : String)
    (st : St Request World User) (req : Request) (e : Error) (w : World)
    (h : c.NewRequest "DELETE" ("teams/" ++ formatInt team ++ "/members/" ++ user) Body.nil st.world = ((req, some e), w)) :
    OrganizationsService.RemoveTeamMember c team user st =
      (some e, ⟨w, st.trace ++ [Call.newRequest "DELETE" ("teams/" ++ formatInt team ++ "/members/" ++ user) Body.nil]⟩) := by
  simp [OrganizationsService.RemoveTeamMember, Client.newRequest, Client.doRequest, sprintf_teams_members, h]

theorem removeTeamMember_ok (c : Client Request Response Error World User) (team : Int) (user : String)
    (st : St Request World User) (req : Request) (w : World)
    (h : c.NewRequest "DELETE" ("teams/" ++ formatInt team ++ "/members/" ++ user) Body.nil st.world = ((req, none), w)) :
    OrganizationsService.RemoveTeamMember c team user st =
      ((c.Do req TargetKind.nil () w).1.2,
        ⟨(c.Do req TargetKind.nil () w).2.2,
          st.trace ++ [Call.newRequest "DELETE" ("teams/" ++ formatInt team ++ "/members/" ++ user) Body.nil,
            Call.doRequest req TargetKind.nil ()]⟩) := by
  simp [OrganizationsService.RemoveTeamMember, Client.newRequest, Client.doRequest, sprintf_teams_members, h]

theorem publicizeMembership_fail (c : Client Request Response Error World User) (org user : String)
    (st : St Request World User) (req : Request) (e : Error) (w : World)
    (h : c.NewRequest "PUT" ("orgs/" ++ org ++ "/public_members/" ++ user) Body.nil st.world = ((req, some e), w)) :
    OrganizationsService.PublicizeMembership c org user st =
      (some e, ⟨w, st.trace ++ [Call.newRequest "PUT" ("orgs/" ++ org ++ "/public_members/" ++ user) Body.nil]⟩) := by
  simp [OrganizationsService.PublicizeMembership, Client.newRequest, Client.doRequest, sprintf_orgs_public_members_user, h]

theorem publicizeMembership_ok (c : Client Request Response Error World User) (org user : String)
    (st : St Request World User) (req : Request) (w : World)
    (h : c.NewRequest "PUT" ("orgs/" ++ org ++ "/public_members/" ++ user) Body.nil st.world = ((req, none), w)) :
    OrganizationsService.PublicizeMembership c org user st =
      ((c.Do req TargetKind.nil () w).1.2,
        ⟨(c.Do req TargetKind.nil () w).2.2,
          st.trace ++ [Call.newRequest "PUT" ("orgs/" ++ org ++ "/public_members/" ++ user) Body.nil,
            Call.doRequest req TargetKind.nil ()]⟩) := by
  simp [OrganizationsService.PublicizeMembership, Client.newRequest, Client.doRequest, sprintf_orgs_public_members_user, h]

theorem concealMembership_fail (c : Client Request Response Error World User) (org user : String)
    (st : St Request World User) (req : Request) (e : Error) (w : World)
    (h : c.NewRequest "DELETE" ("orgs/" ++ org ++ "/public_members/" ++ user) Body.nil st.world = ((req, some e), w)) :
    OrganizationsService.ConcealMembership c org user st =
      (some e, ⟨w, st.trace ++ [Call.newRequest "DELETE" ("orgs/" ++ org ++ "/public_members/" ++ user) Body.nil]⟩) := by
  simp [OrganizationsService.ConcealMembership, Client.newRequest, Client.doRequest, sprintf_orgs_public_members_user, h]

theorem concealMembership_ok (c : Client Request Response Error World User) (org user : String)
    (st : St Request World User) (req : Request) (w : World)
    (h : c.NewRequest "DELETE" ("orgs/" ++ org ++ "/public_members/" ++ user) Body.nil st.world = ((req, none), w)) :
    OrganizationsService.ConcealMembership c org user st =
      ((c.Do req TargetKind.nil () w).1.2,
        ⟨(c.Do req TargetKind.nil () w).2.2,
          st.trace ++ [Call.newRequest "DELETE" ("orgs/" ++ org ++ "/public_members/" ++ user) Body.nil,
            Call.doRequest req TargetKind.nil ()]⟩) := by
  simp [OrganizationsService.ConcealMembership, Client.newRequest, Client.doRequest, sprintf_orgs_public_members_user, h]

/-! ## Facts about traces -/

theorem builds_of_request_only (st st1 : St Request World User) (method url : String)
    (body : Body) (h : st1.trace = st.trace ++ [Call.newRequest method url body]) :
    Builds st st1 method url body :=
  ⟨_, h, rfl⟩

theorem builds_of_request_then_do (st st1 : St Request World User) (method url : String)
    (body : Body) (req : Request) (k : TargetKind) (v : TargetKind.Pointee User k)
    (h : st1.trace = st.trace ++ [Call.newRequest method url body, Call.doRequest req k v]) :
    Builds st st1 method url body :=
  ⟨_, h, rfl⟩

theorem builds_unique (st st1 : St Request World User) (m1 m2 p1 p2 : String) (b1 b2 : Body)
    (h1 : Builds st st1 m1 p1 b1) (h2 : Builds st st1 m2 p2 b2) :
    m1 = m2 ∧ p1 = p2 ∧ b1 = b2 := by
  obtain ⟨calls1, ht1, hr1⟩ := h1
  obtain ⟨calls2, ht2, hr2⟩ := h2
  have hc : calls1 = calls2 := List.append_cancel_left (ht1.symm.trans ht2)
  subst hc
  rw [hr1] at hr2
  simpa using hr2

theorem builds_listMembers (c : Client Request Response Error World User)
    (org : String) (st : St Request World User) :
    Builds st (OrganizationsService.ListMembers c org st).2 "GET"
      ("orgs/" ++ org ++ "/members") Body.nil := by
  rcases hnr : c.NewRequest "GET" ("orgs/" ++ org ++ "/members") Body.nil st.world with ⟨⟨req, _ | e⟩, w⟩
  · rw [listMembers_ok c org st req w hnr]
    exact builds_of_request_then_do _ _ _ _ _ _ _ _ rfl
  · rw [listMembers_fail c org st req e w hnr]
    exact builds_of_request_only _ _ _ _ _ rfl

theorem builds_listPublicMembers (c : Client Request Response Error World User)
    (org : String) (st : St Request World User) :
    Builds st (OrganizationsService.ListPublicMembers c org st).2 "GET"
      ("orgs/" ++ org ++ "/public_members") Body.nil := by
  rcases hnr : c.NewRequest "GET" ("orgs/" ++ org ++ "/public_members") Body.nil st.world with ⟨⟨req, _ | e⟩, w⟩
  · rw [listPublicMembers_ok c org st req w hnr]
    exact builds_of_request_then_do _ _ _ _ _ _ _ _ rfl
  · rw [listPublicMembers_fail c org st req e w hnr]
    exact builds_of_request_only _ _ _ _ _ rfl

theorem builds_listTeams (c : Client Request Response Error World User)
    (org : String) (st : St Request World User) :
    Builds st (OrganizationsService.ListTeams c org st).2 "GET"
      ("orgs/" ++ org ++ "/teams") Body.nil := by
  rcases hnr : c.NewRequest "GET" ("orgs/" ++ org ++ "/teams") Body.nil st.world with ⟨⟨req, _ | e⟩, w⟩
  · rw [listTeams_ok c org st req w hnr]
    exact builds_of_request_then_do _ _ _ _ _ _ _ _ rfl
  · rw [listTeams_fail c org st req e w hnr]
    exact builds_of_request_only _ _ _ _ _ rfl

theorem builds_get (c : Client Request Response Error World User)
    (org : String) (st : St Request World User) :
    Builds st (OrganizationsService.Get c org st).2 "GET" ("orgs/" ++ org) Body.nil := by
  rcases hnr : c.NewRequest "GET" ("orgs/" ++ org) Body.nil st.world with ⟨⟨req, _ | e⟩, w⟩
  · rw [get_ok c org st req w hnr]
    exact builds_of_request_then_do _ _ _ _ _ _ _ _ rfl
  · rw [get_fail c org st req e w hnr]
    exact builds_of_request_only _ _ _ _ _ rfl

theorem builds_edit (c : Client Request Response Error World User)
    (name : String) (org : Option Organization) (st : St Request World User) :
    Builds st (OrganizationsService.Edit c name org st).2 "PATCH" ("orgs/" ++ name)
      (Body.organization org) := by
  rcases hnr : c.NewRequest "PATCH" ("orgs/" ++ name) (Body.organization org) st.world with ⟨⟨req, _ | e⟩, w⟩
  · rw [edit_ok c name org st req w hnr]
    exact builds_of_request_then_do _ _ _ _ _ _ _ _ rfl
  · rw [edit_fail c name org st req e w hnr]
    exact builds_of_request_only _ _ _ _ _ rfl

theorem builds_list (c : Client Request Response Error World User)
    (u : String) (st : St Request World User) :
    Builds st (OrganizationsService.List c u st).2 "GET"
      (if u = "" then "user/orgs" else "users/" ++ u ++ "/orgs") Body.nil := by
  rcases hnr : c.NewRequest "GET" (if u = "" then "user/orgs" else "users/" ++ u ++ "/orgs") Body.nil st.world with ⟨⟨req, _ | e⟩, w⟩
  · rw [list_ok c u st req w hnr]
    exact builds_of_request_then_do _ _ _ _ _ _ _ _ rfl
  · rw [list_fail c u st req e w hnr]
    exact builds_of_request_only _ _ _ _ _ rfl

theorem builds_addTeamMember (c : Client Request Response Error World User)
    (team : Int) (user : String) (st : St Request World User) :
    Builds st (OrganizationsService.AddTeamMember c team user st).2 "PUT"
      ("teams/" ++ formatInt team ++ "/members/" ++ user) Body.nil := by
  rcases hnr : c.NewRequest "PUT" ("teams/" ++ formatInt team ++ "/members/" ++ user) Body.nil st.world with ⟨⟨req, _ | e⟩, w⟩
  · rw [addTeamMember_ok c team user st req w hnr]
    exact builds_of_request_then_do _ _ _ _ _ _ _ _ rfl
  · rw [addTeamMember_fail c team user st req e w hnr]
    exact builds_of_request_only _ _ _ _ _ rfl

theorem builds_removeTeamMember (c : Client Request Response Error World User)
    (team : Int) (user : String) (st : St Request World User) :
    Builds st (OrganizationsService.RemoveTeamMember c team user st).2 "DELETE"
      ("teams/" ++ formatInt team ++ "/members/" ++ user) Body.nil := by
  rcases hnr : c.NewRequest "DELETE" ("teams/" ++ formatInt team ++ "/members/" ++ user) Body.nil st.world with ⟨⟨req, _ | e⟩, w⟩
  · rw [removeTeamMember_ok c team user st req w hnr]
    exact builds_of_request_then_do _ _ _ _ _ _ _ _ rfl
  · rw [removeTeamMember_fail c team user st req e w hnr]
    exact builds_of_request_only _ _ _ _ _ rfl

theorem builds_publicizeMembership (c : Client Request Response Error World User)
    (org user : String) (st : St Request World User) :
    Builds st (OrganizationsService.PublicizeMembership c org user st).2 "PUT"
      ("orgs/" ++ org ++ "/public_members/" ++ user) Body.nil := by
  rcases hnr : c.NewRequest "PUT" ("orgs/" ++ org ++ "/public_members/" ++ user) Body.nil st.world with ⟨⟨req, _ | e⟩, w⟩
  · rw [publicizeMembership_ok c org user st req w hnr]
    exact builds_of_request_then_do _ _ _ _ _ _ _ _ rfl
  · rw [publicizeMembership_fail c org user st req e w hnr]
    exact builds_of_request_only _ _ _ _ _ rfl

theorem builds_concealMembership (c : Client Request Response Error World User)
    (org user : String) (st : St Request World User) :
    Builds st (OrganizationsService.ConcealMembership c org user st).2 "DELETE"
      ("orgs/" ++ org ++ "/public_members/" ++ user) Body.nil := by
  rcases hnr : c.NewRequest "DELETE" ("orgs/" ++ org ++ "/public_members/" ++ user) Body.nil st.world with ⟨⟨req, _ | e⟩, w⟩
  · rw [concealMembership_ok c org user st req w hnr]
    exact builds_of_request_then_do _ _ _ _ _ _ _ _ rfl
  · rw [concealMembership_fail c org user st req e w hnr]
    exact builds_of_request_only _ _ _ _ _ rfl

theorem nilTarget_addTeamMember (c : Client Request Response Error World User)
    (team : Int) (user : String) (st : St Request World User) :
    NilTargetOnly st (OrganizationsService.AddTeamMember c team user st).2 := by
  rcases hnr : c.NewRequest "PUT" ("teams/" ++ formatInt team ++ "/members/" ++ user) Body.nil st.world with ⟨⟨req, _ | e⟩, w⟩
  · rw [addTeamMember_ok c team user st req w hnr]
    exact ⟨_, rfl, by simp [doTargets]⟩
  · rw [addTeamMember_fail c team user st req e w hnr]
    exact ⟨_, rfl, by simp [doTargets]⟩

theorem nilTarget_removeTeamMember (c : Client Request Response Error World User)
    (team : Int) (user : String) (st : St Request World User) :
    NilTargetOnly st (OrganizationsService.RemoveTeamMember c team user st).2 := by
  rcases hnr : c.NewRequest "DELETE" ("teams/" ++ formatInt team ++ "/members/" ++ user) Body.nil st.world with ⟨⟨req, _ | e⟩, w⟩
  · rw [removeTeamMember_ok c team user st req w hnr]
    exact ⟨_, rfl, by simp [doTargets]⟩
  · rw [removeTeamMember_fail c team user st req e w hnr]
    exact ⟨_, rfl, by simp [doTargets]⟩

theorem nilTarget_publicizeMembership (c : Client Request Response Error World User)
    (org user : String) (st : St Request World User) :
    NilTargetOnly st (OrganizationsService.PublicizeMembership c org user st).2 := by
  rcases hnr : c.NewRequest "PUT" ("orgs/" ++ org ++ "/public_members/" ++ user) Body.nil st.world with ⟨⟨req, _ | e⟩, w⟩
  · rw [publicizeMembership_ok c org user st req w hnr]
    exact ⟨_, rfl, by simp [doTargets]⟩
  · rw [publicizeMembership_fail c org user st req e w hnr]
    exact ⟨_, rfl, by simp [doTargets]⟩

theorem nilTarget_concealMembership (c : Client Request Response Error World User)
    (org user : String) (st : St Request World User) :
    NilTargetOnly st (OrganizationsService.ConcealMembership c org user st).2 := by
  rcases hnr : c.NewRequest "DELETE" ("orgs/" ++ org ++ "/public_members/" ++ user) Body.nil st.world with ⟨⟨req, _ | e⟩, w⟩
  · rw [concealMembership_ok c org user st req w hnr]
    exact ⟨_, rfl, by simp [doTargets]⟩
  · rw [concealMembership_fail c org user st req e w hnr]
    exact ⟨_, rfl, by simp [doTargets]⟩

/-! ## The claims -/

/-- C1: for every user name `u`, `List(u)` builds exactly one request, with verb GET
and a nil body, whose path is the literal `user/orgs` when `u` is empty and
`users/` followed by `u` followed by `/orgs` otherwise. -/
theorem list_builds_one_get_request (c : Client Request Response Error World User)
    (u : String) (st : St Request World User) :
    Builds st (OrganizationsService.List c u st).2 "GET"
      (if u = "" then "user/orgs" else "users/" ++ u ++ "/orgs") Body.nil :=
  builds_list c u st

/-- C2: for each of the ten operations and every input, if `NewRequest` succeeds then
`Do` is called exactly once, on the request `NewRequest` returned, and the error the
operation returns is the error `Do` returned (nil when `Do` returned nil). -/
theorem do_called_once_and_error_returned (c : Client Request Response Error World User)
    (st : St Request World User) :
    (∀ (u : String),
      ExecutesOnce c "GET" (if u = "" then "user/orgs" else "users/" ++ u ++ "/orgs") Body.nil
        TargetKind.organizations none st
        ((OrganizationsService.List c u st).1.2,
        (OrganizationsService.List c u st).2)) ∧
    (∀ (org : String),
      ExecutesOnce c "GET" ("orgs/" ++ org) Body.nil
        TargetKind.organization Organization.zero st
        ((OrganizationsService.Get c org st).1.2,
        (OrganizationsService.Get c org st).2)) ∧
    (∀ (name : String) (org : Option Organization),
      ExecutesOnce c "PATCH" ("orgs/" ++ name) (Body.organization org)
        TargetKind.organization Organization.zero st
        ((OrganizationsService.Edit c name org st).1.2,
        (OrganizationsService.Edit c name org st).2)) ∧
    (∀ (org : String),
      ExecutesOnce c "GET" ("orgs/" ++ org ++ "/members") Body.nil
        TargetKind.users none st
        ((OrganizationsService.ListMembers c org st).1.2,
        (OrganizationsService.ListMembers c org st).2)) ∧
    (∀ (org : String),
      ExecutesOnce c "GET" ("orgs/" ++ org ++ "/public_members") Body.nil
        TargetKind.users none st
        ((OrganizationsService.ListPublicMembers c org st).1.2,
        (OrganizationsService.ListPublicMembers c org st).2)) ∧
    (∀ (org : String),
      ExecutesOnce c "GET" ("orgs/" ++ org ++ "/teams") Body.nil
        TargetKind.teams none st
        ((OrganizationsService.ListTeams c org st).1.2,
        (OrganizationsService.ListTeams c org st).2)) ∧
    (∀ (team : Int) (user : String),
      ExecutesOnce c "PUT" ("teams/" ++ formatInt team ++ "/members/" ++ user) Body.nil
        TargetKind.nil () st
        (OrganizationsService.AddTeamMember c team user st)) ∧
    (∀ (team : Int) (user : String),
      ExecutesOnce c "DELETE" ("teams/" ++ formatInt team ++ "/members/" ++ user) Body.nil
        TargetKind.nil () st
        (OrganizationsService.RemoveTeamMember c team user st)) ∧
    (∀ (org user : String),
      ExecutesOnce c "PUT" ("orgs/" ++ org ++ "/public_members/" ++ user) Body.nil
        TargetKind.nil () st
        (OrganizationsService.PublicizeMembership c org user st)) ∧
    (∀ (org user : String),
      ExecutesOnce c "DELETE" ("orgs/" ++ org ++ "/public_members/" ++ user) Body.nil
        TargetKind.nil () st
        (OrganizationsService.ConcealMembership c org user st)) := by
  refine ⟨?_, ?_⟩
  · intro u req w h
    rw [list_ok c u st req w h]
    exact ⟨rfl, rfl⟩
  refine ⟨?_, ?_⟩
  · intro org req w h
    rw [get_ok c org st req w h]
    exact ⟨rfl, rfl⟩
  refine ⟨?_, ?_⟩
  · intro name org req w h
    rw [edit_ok c name org st req w h]
    exact ⟨rfl, rfl⟩
  refine ⟨?_, ?_⟩
  · intro org req w h
    rw [listMembers_ok c org st req w h]
    exact ⟨rfl, rfl⟩
  refine ⟨?_, ?_⟩
  · intro org req w h
    rw [listPublicMembers_ok c org st req w h]
    exact ⟨rfl, rfl⟩
  refine ⟨?_, ?_⟩
  · intro org req w h
    rw [listTeams_ok c org st req w h]
    exact ⟨rfl, rfl⟩
  refine ⟨?_, ?_⟩
  · intro team user req w h
    rw [addTeamMember_ok c team user st req w h]
    exact ⟨rfl, rfl⟩
  refine ⟨?_, ?_⟩
  · intro team user req w h
    rw [removeTeamMember_ok c team user st req w h]
    exact ⟨rfl, rfl⟩
  refine ⟨?_, ?_⟩
  · intro org user req w h
    rw [publicizeMembership_ok c org user st req w h]
    exact ⟨rfl, rfl⟩
  · intro org user req w h
    rw [concealMembership_ok c org user st req w h]
    exact ⟨rfl, rfl⟩

/-- C3: for each of the ten operations and every input, if `NewRequest` returns an
error then the operation returns that error, the `NewRequest` call is the only call it
makes (`Do` is never called), and the six value-returning operations return a nil
result next to the error. -/
theorem request_error_returned_without_do (c : Client Request Response Error World User)
    (st : St Request World User) :
    (∀ (u : String),
      StopsAtRequestError c "GET" (if u = "" then "user/orgs" else "users/" ++ u ++ "/orgs") Body.nil st
        ((OrganizationsService.List c u st).1.2,
        (OrganizationsService.List c u st).2)
        ((OrganizationsService.List c u st).1.1 = none)) ∧
    (∀ (org : String),
      StopsAtRequestError c "GET" ("orgs/" ++ org) Body.nil st
        ((OrganizationsService.Get c org st).1.2,
        (OrganizationsService.Get c org st).2)
        ((OrganizationsService.Get c org st).1.1 = none)) ∧
    (∀ (name : String) (org : Option Organization),
      StopsAtRequestError c "PATCH" ("orgs/" ++ name) (Body.organization org) st
        ((OrganizationsService.Edit c name org st).1.2,
        (OrganizationsService.Edit c name org st).2)
        ((OrganizationsService.Edit c name org st).1.1 = none)) ∧
    (∀ (org : String),
      StopsAtRequestError c "GET" ("orgs/" ++ org ++ "/members") Body.nil st
        ((OrganizationsService.ListMembers c org st).1.2,
        (OrganizationsService.ListMembers c org st).2)
        ((OrganizationsService.ListMembers c org st).1.1 = none)) ∧
    (∀ (org : String),
      StopsAtRequestError c "GET" ("orgs/" ++ org ++ "/public_members") Body.nil st
        ((OrganizationsService.ListPublicMembers c org st).1.2,
        (OrganizationsService.ListPublicMembers c org st).2)
        ((OrganizationsService.ListPublicMembers c org st).1.1 = none)) ∧
    (∀ (org : String),
      StopsAtRequestError c "GET" ("orgs/" ++ org ++ "/teams") Body.nil st
        ((OrganizationsService.ListTeams c org st).1.2,
        (OrganizationsService.ListTeams c org st).2)
        ((OrganizationsService.ListTeams c org st).1.1 = none)) ∧
    (∀ (team : Int) (user : String),
      StopsAtRequestError c "PUT" ("teams/" ++ formatInt team ++ "/members/" ++ user) Body.nil st
        (OrganizationsService.AddTeamMember c team user st)
        True) ∧
    (∀ (team : Int) (user : String),
      StopsAtRequestError c "DELETE" ("teams/" ++ formatInt team ++ "/members/" ++ user) Body.nil st
        (OrganizationsService.RemoveTeamMember c team user st)
        True) ∧
    (∀ (org user : String),
      StopsAtRequestError c "PUT" ("orgs/" ++ org ++ "/public_members/" ++ user) Body.nil st
        (OrganizationsService.PublicizeMembership c org user st)
        True) ∧
    (∀ (org user : String),
      StopsAtRequestError c "DELETE" ("orgs/" ++ org ++ "/public_members/" ++ user) Body.nil st
        (OrganizationsService.ConcealMembership c org user st)
        True) := by
  refine ⟨?_, ?_⟩
  · intro u req e w h
    rw [list_fail c u st req e w h]
    exact ⟨rfl, rfl, rfl, rfl⟩
  refine ⟨?_, ?_⟩
  · intro org req e w h
    rw [get_fail c org st req e w h]
    exact ⟨rfl, rfl, rfl, rfl⟩
  refine ⟨?_, ?_⟩
  · intro name org req e w h
    rw [edit_fail c name org st req e w h]
    exact ⟨rfl, rfl, rfl, rfl⟩
  refine ⟨?_, ?_⟩
  · intro org req e w h
    rw [listMembers_fail c org st req e w h]
    exact ⟨rfl, rfl, rfl, rfl⟩
  refine ⟨?_, ?_⟩
  · intro org req e w h
    rw [listPublicMembers_fail c org st req e w h]
    exact ⟨rfl, rfl, rfl, rfl⟩
  refine ⟨?_, ?_⟩
  · intro org req e w h
    rw [listTeams_fail c org st req e w h]
    exact ⟨rfl, rfl, rfl, rfl⟩
  refine ⟨?_, ?_⟩
  · intro team user req e w h
    rw [addTeamMember_fail c team user st req e w h]
    exact ⟨rfl, rfl, rfl, trivial⟩
  refine ⟨?_, ?_⟩
  · intro team user req e w h
    rw [removeTeamMember_fail c team user st req e w h]
    exact ⟨rfl, rfl, rfl, trivial⟩
  refine ⟨?_, ?_⟩
  · intro org user req e w h
    rw [publicizeMembership_fail c org user st req e w h]
    exact ⟨rfl, rfl, rfl, trivial⟩
  · intro org user req e w h
    rw [concealMembership_fail c org user st req e w h]
    exact ⟨rfl, rfl, rfl, trivial⟩

/-- C4: for every organization name `org`, `Get(org)` builds a GET request with a nil
body for the path `orgs/` followed by `org`; the decode target handed to `Do` is a new
`Organization` with every field zero; and when `NewRequest` and `Do` both succeed,
`Get` returns a pointer to exactly the `Organization` that `Do` left in the target (so a
field that `Do` did not write is still zero) together with a nil error. -/
theorem get_returns_decoded_organization (c : Client Request Response Error World User)
    (org : String) (st : St Request World User) :
    Builds st (OrganizationsService.Get c org st).2 "GET" ("orgs/" ++ org) Body.nil ∧
    ∀ req w resp o w1,
      c.NewRequest "GET" ("orgs/" ++ org) Body.nil st.world = ((req, none), w) →
      c.Do req TargetKind.organization ⟨"", 0, "", "", ""⟩ w = ((resp, none), o, w1) →
      (OrganizationsService.Get c org st).1 = (some o, none) ∧
      (OrganizationsService.Get c org st).2.trace
        = st.trace ++ [Call.newRequest "GET" ("orgs/" ++ org) Body.nil,
            Call.doRequest req TargetKind.organization ⟨"", 0, "", "", ""⟩] := by
  constructor
  · exact builds_get c org st
  · intro req w resp o w1 hnr hdo
    have hdo1 : c.Do req TargetKind.organization Organization.zero w = ((resp, none), o, w1) := hdo
    rw [get_ok c org st req w hnr, hdo1]
    exact ⟨rfl, rfl⟩

/-- C5: for every `name` and every `Organization` pointer `org`, `Edit(name, org)` builds
a PATCH request for the path `orgs/` followed by `name` (whatever `org` holds) with `org`
itself, unaltered, as the body; and when `NewRequest` and `Do` both succeed it returns a
pointer to the `Organization` that `Do` left in the new decode target (not the input
`org`) together with a nil error. -/
theorem edit_patches_and_returns_decoded (c : Client Request Response Error World User)
    (name : String) (org : Option Organization) (st : St Request World User) :
    Builds st (OrganizationsService.Edit c name org st).2 "PATCH" ("orgs/" ++ name)
      (Body.organization org) ∧
    ∀ req w resp o w1,
      c.NewRequest "PATCH" ("orgs/" ++ name) (Body.organization org) st.world
        = ((req, none), w) →
      c.Do req TargetKind.organization ⟨"", 0, "", "", ""⟩ w = ((resp, none), o, w1) →
      (OrganizationsService.Edit c name org st).1 = (some o, none) ∧
      (OrganizationsService.Edit c name org st).2.trace
        = st.trace ++ [Call.newRequest "PATCH" ("orgs/" ++ name) (Body.organization org),
            Call.doRequest req TargetKind.organization ⟨"", 0, "", "", ""⟩] := by
  constructor
  · exact builds_edit c name org st
  · intro req w resp o w1 hnr hdo
    have hdo1 : c.Do req TargetKind.organization Organization.zero w = ((resp, none), o, w1) := hdo
    rw [edit_ok c name org st req w hnr, hdo1]
    exact ⟨rfl, rfl⟩

/-- C6: for every integer `team` (zero and negative values included) and every `user`,
`AddTeamMember(team, user)` builds a PUT request with a nil body for the path `teams/`,
the decimal digits of `team`, `/members/`, `user`; when `NewRequest` succeeds it calls
`Do` with a nil decode target; and the error it returns, its only result, is nil exactly
when both `NewRequest` and `Do` succeed. -/
theorem addTeamMember_puts_and_returns_error_only
    (c : Client Request Response Error World User)
    (team : Int) (user : String) (st : St Request World User) :
    Builds st (OrganizationsService.AddTeamMember c team user st).2 "PUT"
      ("teams/" ++ formatInt team ++ "/members/" ++ user) Body.nil ∧
    (∀ req w,
      c.NewRequest "PUT" ("teams/" ++ formatInt team ++ "/members/" ++ user) Body.nil st.world
        = ((req, none), w) →
      (OrganizationsService.AddTeamMember c team user st).2.trace
        = st.trace ++ [Call.newRequest "PUT"
              ("teams/" ++ formatInt team ++ "/members/" ++ user) Body.nil,
            Call.doRequest req TargetKind.nil ()]) ∧
    ((OrganizationsService.AddTeamMember c team user st).1 = none ↔
      ∃ req w,
        c.NewRequest "PUT" ("teams/" ++ formatInt team ++ "/members/" ++ user) Body.nil
          st.world = ((req, none), w) ∧
        (c.Do req TargetKind.nil () w).1.2 = none) ∧
    (formatInt 42 = "42" ∧ formatInt 0 = "0" ∧ formatInt (-7) = "-7" ∧
      formatInt (-9223372036854775808) = "-9223372036854775808") := by
  refine ⟨?_, ?_, ?_, by decide⟩
  · exact builds_addTeamMember c team user st
  · intro req w hnr
    rw [addTeamMember_ok c team user st req w hnr]
  · rcases hnr : c.NewRequest "PUT" ("teams/" ++ formatInt team ++ "/members/" ++ user)
      Body.nil st.world with ⟨⟨req, _ | e⟩, w⟩
    · rw [addTeamMember_ok c team user st req w hnr]
      constructor
      · intro h
        exact ⟨req, w, rfl, h⟩
      · rintro ⟨req1, w1, heq, h⟩
        simp only [Prod.mk.injEq, and_true, true_and] at heq
        obtain ⟨h1, h2⟩ := heq
        subst h1
        subst h2
        exact h
    · rw [addTeamMember_fail c team user st req e w hnr]
      constructor
      · intro h
        simp at h
      · rintro ⟨req1, w1, heq, _⟩
        simp at heq

/-- C7: for every pair of organization names `o1` and `o2` (in particular for the same
name twice), `ListMembers(o1)` and `ListPublicMembers(o2)` each build one GET request
with a nil body, for the paths `orgs/o1/members` and `orgs/o2/public_members`, and
these two paths are never equal. -/
theorem listMembers_listPublicMembers_paths_differ
    (c : Client Request Response Error World User)
    (o1 o2 : String) (st1 st2 : St Request World User) :
    Builds st1 (OrganizationsService.ListMembers c o1 st1).2 "GET"
      ("orgs/" ++ o1 ++ "/members") Body.nil ∧
    Builds st2 (OrganizationsService.ListPublicMembers c o2 st2).2 "GET"
      ("orgs/" ++ o2 ++ "/public_members") Body.nil ∧
    "orgs/" ++ o1 ++ "/members" ≠ "orgs/" ++ o2 ++ "/public_members" :=
  ⟨builds_listMembers c o1 st1, builds_listPublicMembers c o2 st2,
    members_ne_public_members o1 o2⟩

/-- C8: for every `org` and `user`, `PublicizeMembership` and `ConcealMembership` build
one request each for the same path `orgs/org/public_members/user`, with a nil body, the
verb being PUT for the first and DELETE for the second, and whenever `NewRequest`
succeeds each of them makes exactly one `Do` call, on the request returned, with the nil
decode target; and for every `team` and `user`, `AddTeamMember` and `RemoveTeamMember`
build one request each for the same path `teams/team/members/user`, with a nil body,
the verb being PUT for the first and DELETE for the second, and whenever `NewRequest`
succeeds each of them makes exactly one `Do` call, on the request returned, with the nil
decode target.  So within each pair the calls made differ in the verb only. -/
theorem membership_pairs_differ_only_in_verb
    (c : Client Request Response Error World User)
    (org user : String) (team : Int) (st : St Request World User) :
    (Builds st (OrganizationsService.PublicizeMembership c org user st).2 "PUT"
        ("orgs/" ++ org ++ "/public_members/" ++ user) Body.nil ∧
      Builds st (OrganizationsService.ConcealMembership c org user st).2 "DELETE"
        ("orgs/" ++ org ++ "/public_members/" ++ user) Body.nil ∧
      NilTargetOnly st (OrganizationsService.PublicizeMembership c org user st).2 ∧
      NilTargetOnly st (OrganizationsService.ConcealMembership c org user st).2 ∧
      (∀ req w,
        c.NewRequest "PUT" ("orgs/" ++ org ++ "/public_members/" ++ user) Body.nil st.world
          = ((req, none), w) →
        (OrganizationsService.PublicizeMembership c org user st).2.trace
          = st.trace ++ [Call.newRequest "PUT" ("orgs/" ++ org ++ "/public_members/" ++ user) Body.nil,
              Call.doRequest req TargetKind.nil ()]) ∧
      (∀ req w,
        c.NewRequest "DELETE" ("orgs/" ++ org ++ "/public_members/" ++ user) Body.nil st.world
          = ((req, none), w) →
        (OrganizationsService.ConcealMembership c org user st).2.trace
          = st.trace ++ [Call.newRequest "DELETE" ("orgs/" ++ org ++ "/public_members/" ++ user) Body.nil,
              Call.doRequest req TargetKind.nil ()])) ∧
    (Builds st (OrganizationsService.AddTeamMember c team user st).2 "PUT"
        ("teams/" ++ formatInt team ++ "/members/" ++ user) Body.nil ∧
      Builds st (OrganizationsService.RemoveTeamMember c team user st).2 "DELETE"
        ("teams/" ++ formatInt team ++ "/members/" ++ user) Body.nil ∧
      NilTargetOnly st (OrganizationsService.AddTeamMember c team user st).2 ∧
      NilTargetOnly st (OrganizationsService.RemoveTeamMember c team user st).2 ∧
      (∀ req w,
        c.NewRequest "PUT" ("teams/" ++ formatInt team ++ "/members/" ++ user) Body.nil st.world
          = ((req, none), w) →
        (OrganizationsService.AddTeamMember c team user st).2.trace
          = st.trace ++ [Call.newRequest "PUT" ("teams/" ++ formatInt team ++ "/members/" ++ user) Body.nil,
              Call.doRequest req TargetKind.nil ()]) ∧
      (∀ req w,
        c.NewRequest "DELETE" ("teams/" ++ formatInt team ++ "/members/" ++ user) Body.nil st.world
          = ((req, none), w) →
        (OrganizationsService.RemoveTeamMember c team user st).2.trace
          = st.trace ++ [Call.newRequest "DELETE" ("teams/" ++ formatInt team ++ "/members/" ++ user) Body.nil,
              Call.doRequest req TargetKind.nil ()])) ∧
    "PUT" ≠ "DELETE" :=
  ⟨⟨builds_publicizeMembership c org user st, builds_concealMembership c org user st,
      nilTarget_publicizeMembership c org user st, nilTarget_concealMembership c org user st,
      fun req w h => by rw [publicizeMembership_ok c org user st req w h],
      fun req w h => by rw [concealMembership_ok c org user st req w h]⟩,
    ⟨builds_addTeamMember c team user st, builds_removeTeamMember c team user st,
      nilTarget_addTeamMember c team user st, nilTarget_removeTeamMember c team user st,
      fun req w h => by rw [addTeamMember_ok c team user st req w h],
      fun req w h => by rw [removeTeamMember_ok c team user st req w h]⟩,
    by decide⟩

/-- C9: no operation validates or escapes its string arguments: for every argument
string whatsoever the path is the fixed text with the arguments spliced in, character
for character.  Hence distinct operations can build the same request:
`Get("acme/members")` builds GET `orgs/acme/members`, as `ListMembers("acme")` does.
The exception is the endpoint of the authenticated user: for every non-empty `u` the
path that `List(u)` requests is never `user/orgs`. -/
theorem paths_splice_arguments_unescaped (c : Client Request Response Error World User)
    (st : St Request World User) :
    ((∀ u, u ≠ "" →
        Builds st (OrganizationsService.List c u st).2 "GET" ("users/" ++ u ++ "/orgs") Body.nil) ∧
      (∀ org, Builds st (OrganizationsService.Get c org st).2 "GET" ("orgs/" ++ org) Body.nil) ∧
      (∀ name org, Builds st (OrganizationsService.Edit c name org st).2 "PATCH"
        ("orgs/" ++ name) (Body.organization org)) ∧
      (∀ org, Builds st (OrganizationsService.ListMembers c org st).2 "GET"
        ("orgs/" ++ org ++ "/members") Body.nil) ∧
      (∀ org, Builds st (OrganizationsService.ListPublicMembers c org st).2 "GET"
        ("orgs/" ++ org ++ "/public_members") Body.nil) ∧
      (∀ org, Builds st (OrganizationsService.ListTeams c org st).2 "GET"
        ("orgs/" ++ org ++ "/teams") Body.nil) ∧
      (∀ team user, Builds st (OrganizationsService.AddTeamMember c team user st).2 "PUT"
        ("teams/" ++ formatInt team ++ "/members/" ++ user) Body.nil) ∧
      (∀ team user, Builds st (OrganizationsService.RemoveTeamMember c team user st).2 "DELETE"
        ("teams/" ++ formatInt team ++ "/members/" ++ user) Body.nil) ∧
      (∀ org user, Builds st (OrganizationsService.PublicizeMembership c org user st).2 "PUT"
        ("orgs/" ++ org ++ "/public_members/" ++ user) Body.nil) ∧
      (∀ org user, Builds st (OrganizationsService.ConcealMembership c org user st).2 "DELETE"
        ("orgs/" ++ org ++ "/public_members/" ++ user) Body.nil)) ∧
    (Builds st (OrganizationsService.Get c "../a b?x=%v#/" st).2 "GET"
        "orgs/../a b?x=%v#/" Body.nil) ∧
    (Builds st (OrganizationsService.Get c "acme/members" st).2 "GET"
        "orgs/acme/members" Body.nil ∧
      Builds st (OrganizationsService.ListMembers c "acme" st).2 "GET"
        "orgs/acme/members" Body.nil) ∧
    (∀ u, u ≠ "" → ∀ method body,
      ¬ Builds st (OrganizationsService.List c u st).2 method "user/orgs" body) := by
  refine ⟨⟨?_, fun org => builds_get c org st, fun name org => builds_edit c name org st,
    fun org => builds_listMembers c org st, fun org => builds_listPublicMembers c org st,
    fun org => builds_listTeams c org st, fun team user => builds_addTeamMember c team user st,
    fun team user => builds_removeTeamMember c team user st,
    fun org user => builds_publicizeMembership c org user st,
    fun org user => builds_concealMembership c org user st⟩, builds_get c _ st,
    ⟨builds_get c _ st, builds_listMembers c _ st⟩, ?_⟩
  · intro u hu
    have h := builds_list c u st
    rwa [if_neg hu] at h
  · intro u hu method body hb
    have h := builds_list c u st
    rw [if_neg hu] at h
    exact users_orgs_ne_user_orgs u (builds_unique _ _ _ _ _ _ _ _ h hb).2.1

/-- C10: when `NewRequest` succeeds and `Do` returns a non-nil error, `Get` and `Edit`
return a non-nil pointer to the decode target, holding whatever `Do` left in the
initially zero `Organization`, together with that error; `List`, `ListMembers`,
`ListPublicMembers` and `ListTeams` return the initially nil target slice as `Do` left
it, together with that error.  `Get` and `Edit` return a nil pointer if and only if
`NewRequest` failed. -/
theorem do_error_keeps_decode_target (c : Client Request Response Error World User)
    (st : St Request World User) :
    (∀ org req w resp e o w1,
      c.NewRequest "GET" ("orgs/" ++ org) Body.nil st.world = ((req, none), w) →
      c.Do req TargetKind.organization Organization.zero w = ((resp, some e), o, w1) →
      (OrganizationsService.Get c org st).1 = (some o, some e)) ∧
    (∀ name org req w resp e o w1,
      c.NewRequest "PATCH" ("orgs/" ++ name) (Body.organization org) st.world
        = ((req, none), w) →
      c.Do req TargetKind.organization Organization.zero w = ((resp, some e), o, w1) →
      (OrganizationsService.Edit c name org st).1 = (some o, some e)) ∧
    (∀ u req w resp e s w1,
      c.NewRequest "GET" (if u = "" then "user/orgs" else "users/" ++ u ++ "/orgs") Body.nil
        st.world = ((req, none), w) →
      c.Do req TargetKind.organizations none w = ((resp, some e), s, w1) →
      (OrganizationsService.List c u st).1 = (s, some e)) ∧
    (∀ org req w resp e s w1,
      c.NewRequest "GET" ("orgs/" ++ org ++ "/members") Body.nil st.world = ((req, none), w) →
      c.Do req TargetKind.users none w = ((resp, some e), s, w1) →
      (OrganizationsService.ListMembers c org st).1 = (s, some e)) ∧
    (∀ org req w resp e s w1,
      c.NewRequest "GET" ("orgs/" ++ org ++ "/public_members") Body.nil st.world
        = ((req, none), w) →
      c.Do req TargetKind.users none w = ((resp, some e), s, w1) →
      (OrganizationsService.ListPublicMembers c org st).1 = (s, some e)) ∧
    (∀ org req w resp e s w1,
      c.NewRequest "GET" ("orgs/" ++ org ++ "/teams") Body.nil st.world = ((req, none), w) →
      c.Do req TargetKind.teams none w = ((resp, some e), s, w1) →
      (OrganizationsService.ListTeams c org st).1 = (s, some e)) ∧
    (∀ org, (OrganizationsService.Get c org st).1.1 = none ↔
      ∃ req e w, c.NewRequest "GET" ("orgs/" ++ org) Body.nil st.world = ((req, some e), w)) ∧
    (∀ name org, (OrganizationsService.Edit c name org st).1.1 = none ↔
      ∃ req e w, c.NewRequest "PATCH" ("orgs/" ++ name) (Body.organization org) st.world
        = ((req, some e), w)) := by
  refine ⟨?_, ?_, ?_, ?_, ?_, ?_, ?_, ?_⟩
  · intro org req w resp e o w1 hnr hdo
    rw [get_ok c org st req w hnr, hdo]
  · intro name org req w resp e o w1 hnr hdo
    rw [edit_ok c name org st req w hnr, hdo]
  · intro u req w resp e s w1 hnr hdo
    rw [list_ok c u st req w hnr, hdo]
  · intro org req w resp e s w1 hnr hdo
    rw [listMembers_ok c org st req w hnr, hdo]
  · intro org req w resp e s w1 hnr hdo
    rw [listPublicMembers_ok c org st req w hnr, hdo]
  · intro org req w resp e s w1 hnr hdo
    rw [listTeams_ok c org st req w hnr, hdo]
  · intro org
    rcases hnr : c.NewRequest "GET" ("orgs/" ++ org) Body.nil st.world with ⟨⟨req, _ | e⟩, w⟩
    · rw [get_ok c org st req w hnr]
      simp
    · rw [get_fail c org st req e w hnr]
      simp
  · intro name org
    rcases hnr : c.NewRequest "PATCH" ("orgs/" ++ name) (Body.organization org) st.world
      with ⟨⟨req, _ | e⟩, w⟩
    · rw [edit_ok c name org st req w hnr]
      simp
    · rw [edit_fail c name org st req e w hnr]
      simp

end Proofs

/-! ## Instances on the sample client -/

theorem do_called_once_and_error_returned_witness :
    (sampleClient.NewRequest "GET" "users/bob/orgs" Body.nil 1 = (("GET " ++ "users/bob/orgs", none), 1) ∧
      (OrganizationsService.List sampleClient "bob" ⟨1, []⟩).2.trace
        = [Call.newRequest "GET" "users/bob/orgs" Body.nil,
            Call.doRequest ("GET " ++ "users/bob/orgs") TargetKind.organizations none] ∧
      (OrganizationsService.List sampleClient "bob" ⟨1, []⟩).1.2 = none) ∧
    (sampleClient.NewRequest "GET" "orgs/acme" Body.nil 1 = (("GET " ++ "orgs/acme", none), 1) ∧
      (OrganizationsService.Get sampleClient "acme" ⟨1, []⟩).2.trace
        = [Call.newRequest "GET" "orgs/acme" Body.nil,
            Call.doRequest ("GET " ++ "orgs/acme") TargetKind.organization Organization.zero] ∧
      (OrganizationsService.Get sampleClient "acme" ⟨1, []⟩).1.2 = none) ∧
    (sampleClient.NewRequest "PATCH" "orgs/acme" (Body.organization none) 1 = (("PATCH " ++ "orgs/acme", none), 1) ∧
      (OrganizationsService.Edit sampleClient "acme" none ⟨1, []⟩).2.trace
        = [Call.newRequest "PATCH" "orgs/acme" (Body.organization none),
            Call.doRequest ("PATCH " ++ "orgs/acme") TargetKind.organization Organization.zero] ∧
      (OrganizationsService.Edit sampleClient "acme" none ⟨1, []⟩).1.2 = none) ∧
    (sampleClient.NewRequest "GET" "orgs/acme/members" Body.nil 1 = (("GET " ++ "orgs/acme/members", none), 1) ∧
      (OrganizationsService.ListMembers sampleClient "acme" ⟨1, []⟩).2.trace
        = [Call.newRequest "GET" "orgs/acme/members" Body.nil,
            Call.doRequest ("GET " ++ "orgs/acme/members") TargetKind.users none] ∧
      (OrganizationsService.ListMembers sampleClient "acme" ⟨1, []⟩).1.2 = none) ∧
    (sampleClient.NewRequest "GET" "orgs/acme/public_members" Body.nil 1 = (("GET " ++ "orgs/acme/public_members", none), 1) ∧
      (OrganizationsService.ListPublicMembers sampleClient "acme" ⟨1, []⟩).2.trace
        = [Call.newRequest "GET" "orgs/acme/public_members" Body.nil,
            Call.doRequest ("GET " ++ "orgs/acme/public_members") TargetKind.users none] ∧
      (OrganizationsService.ListPublicMembers sampleClient "acme" ⟨1, []⟩).1.2 = none) ∧
    (sampleClient.NewRequest "GET" "orgs/acme/teams" Body.nil 1 = (("GET " ++ "orgs/acme/teams", none), 1) ∧
      (OrganizationsService.ListTeams sampleClient "acme" ⟨1, []⟩).2.trace
        = [Call.newRequest "GET" "orgs/acme/teams" Body.nil,
            Call.doRequest ("GET " ++ "orgs/acme/teams") TargetKind.teams none] ∧
      (OrganizationsService.ListTeams sampleClient "acme" ⟨1, []⟩).1.2 = none) ∧
    (sampleClient.NewRequest "PUT" "teams/42/members/bob" Body.nil 1 = (("PUT " ++ "teams/42/members/bob", none), 1) ∧
      (OrganizationsService.AddTeamMember sampleClient 42 "bob" ⟨1, []⟩).2.trace
        = [Call.newRequest "PUT" "teams/42/members/bob" Body.nil,
            Call.doRequest ("PUT " ++ "teams/42/members/bob") TargetKind.nil ()] ∧
      (OrganizationsService.AddTeamMember sampleClient 42 "bob" ⟨1, []⟩).1 = none) ∧
    (sampleClient.NewRequest "DELETE" "teams/-3/members/bob" Body.nil 1 = (("DELETE " ++ "teams/-3/members/bob", none), 1) ∧
      (OrganizationsService.RemoveTeamMember sampleClient (-3) "bob" ⟨1, []⟩).2.trace
        = [Call.newRequest "DELETE" "teams/-3/members/bob" Body.nil,
            Call.doRequest ("DELETE " ++ "teams/-3/members/bob") TargetKind.nil ()] ∧
      (OrganizationsService.RemoveTeamMember sampleClient (-3) "bob" ⟨1, []⟩).1 = none) ∧
    (sampleClient.NewRequest "PUT" "orgs/acme/public_members/bob" Body.nil 1 = (("PUT " ++ "orgs/acme/public_members/bob", none), 1) ∧
      (OrganizationsService.PublicizeMembership sampleClient "acme" "bob" ⟨1, []⟩).2.trace
        = [Call.newRequest "PUT" "orgs/acme/public_members/bob" Body.nil,
            Call.doRequest ("PUT " ++ "orgs/acme/public_members/bob") TargetKind.nil ()] ∧
      (OrganizationsService.PublicizeMembership sampleClient "acme" "bob" ⟨1, []⟩).1 = none) ∧
    (sampleClient.NewRequest "DELETE" "orgs/acme/public_members/bob" Body.nil 1 = (("DELETE " ++ "orgs/acme/public_members/bob", none), 1) ∧
      (OrganizationsService.ConcealMembership sampleClient "acme" "bob" ⟨1, []⟩).2.trace
        = [Call.newRequest "DELETE" "orgs/acme/public_members/bob" Body.nil,
            Call.doRequest ("DELETE " ++ "orgs/acme/public_members/bob") TargetKind.nil ()] ∧
      (OrganizationsService.ConcealMembership sampleClient "acme" "bob" ⟨1, []⟩).1 = none) :=
  ⟨⟨rfl, (do_called_once_and_error_returned sampleClient ⟨1, []⟩).1 "bob" _ 1 rfl⟩,
   ⟨rfl, (do_called_once_and_error_returned sampleClient ⟨1, []⟩).2.1 "acme" _ 1 rfl⟩,
   ⟨rfl, (do_called_once_and_error_returned sampleClient ⟨1, []⟩).2.2.1 "acme" none _ 1 rfl⟩,
   ⟨rfl, (do_called_once_and_error_returned sampleClient ⟨1, []⟩).2.2.2.1 "acme" _ 1 rfl⟩,
   ⟨rfl, (do_called_once_and_error_returned sampleClient ⟨1, []⟩).2.2.2.2.1 "acme" _ 1 rfl⟩,
   ⟨rfl, (do_called_once_and_error_returned sampleClient ⟨1, []⟩).2.2.2.2.2.1 "acme" _ 1 rfl⟩,
   ⟨rfl, (do_called_once_and_error_returned sampleClient ⟨1, []⟩).2.2.2.2.2.2.1 42 "bob" _ 1 rfl⟩,
   ⟨rfl, (do_called_once_and_error_returned sampleClient ⟨1, []⟩).2.2.2.2.2.2.2.1 (-3) "bob" _ 1 rfl⟩,
   ⟨rfl, (do_called_once_and_error_returned sampleClient ⟨1, []⟩).2.2.2.2.2.2.2.2.1 "acme" "bob" _ 1 rfl⟩,
   ⟨rfl, (do_called_once_and_error_returned sampleClient ⟨1, []⟩).2.2.2.2.2.2.2.2.2 "acme" "bob" _ 1 rfl⟩⟩

theorem request_error_returned_without_do_witness :
    (sampleClient.NewRequest "GET" "users/100%/orgs" Body.nil 1
        = (("GET " ++ "users/100%/orgs", some "invalid URL escape"), 1) ∧
      (OrganizationsService.List sampleClient "100%" ⟨1, []⟩).1.2 = some "invalid URL escape" ∧
      (OrganizationsService.List sampleClient "100%" ⟨1, []⟩).2.trace
        = [Call.newRequest "GET" "users/100%/orgs" Body.nil] ∧
      (OrganizationsService.List sampleClient "100%" ⟨1, []⟩).2.world = 1 ∧
      (OrganizationsService.List sampleClient "100%" ⟨1, []⟩).1.1 = none) ∧
    (sampleClient.NewRequest "GET" "orgs/100%" Body.nil 1
        = (("GET " ++ "orgs/100%", some "invalid URL escape"), 1) ∧
      (OrganizationsService.Get sampleClient "100%" ⟨1, []⟩).1.2 = some "invalid URL escape" ∧
      (OrganizationsService.Get sampleClient "100%" ⟨1, []⟩).2.trace
        = [Call.newRequest "GET" "orgs/100%" Body.nil] ∧
      (OrganizationsService.Get sampleClient "100%" ⟨1, []⟩).2.world = 1 ∧
      (OrganizationsService.Get sampleClient "100%" ⟨1, []⟩).1.1 = none) ∧
    (sampleClient.NewRequest "PATCH" "orgs/100%" (Body.organization none) 1
        = (("PATCH " ++ "orgs/100%", some "invalid URL escape"), 1) ∧
      (OrganizationsService.Edit sampleClient "100%" none ⟨1, []⟩).1.2 = some "invalid URL escape" ∧
      (OrganizationsService.Edit sampleClient "100%" none ⟨1, []⟩).2.trace
        = [Call.newRequest "PATCH" "orgs/100%" (Body.organization none)] ∧
      (OrganizationsService.Edit sampleClient "100%" none ⟨1, []⟩).2.world = 1 ∧
      (OrganizationsService.Edit sampleClient "100%" none ⟨1, []⟩).1.1 = none) ∧
    (sampleClient.NewRequest "GET" "orgs/100%/members" Body.nil 1
        = (("GET " ++ "orgs/100%/members", some "invalid URL escape"), 1) ∧
      (OrganizationsService.ListMembers sampleClient "100%" ⟨1, []⟩).1.2 = some "invalid URL escape" ∧
      (OrganizationsService.ListMembers sampleClient "100%" ⟨1, []⟩).2.trace
        = [Call.newRequest "GET" "orgs/100%/members" Body.nil] ∧
      (OrganizationsService.ListMembers sampleClient "100%" ⟨1, []⟩).2.world = 1 ∧
      (OrganizationsService.ListMembers sampleClient "100%" ⟨1, []⟩).1.1 = none) ∧
    (sampleClient.NewRequest "GET" "orgs/100%/public_members" Body.nil 1
        = (("GET " ++ "orgs/100%/public_members", some "invalid URL escape"), 1) ∧
      (OrganizationsService.ListPublicMembers sampleClient "100%" ⟨1, []⟩).1.2 = some "invalid URL escape" ∧
      (OrganizationsService.ListPublicMembers sampleClient "100%" ⟨1, []⟩).2.trace
        = [Call.newRequest "GET" "orgs/100%/public_members" Body.nil] ∧
      (OrganizationsService.ListPublicMembers sampleClient "100%" ⟨1, []⟩).2.world = 1 ∧
      (OrganizationsService.ListPublicMembers sampleClient "100%" ⟨1, []⟩).1.1 = none) ∧
    (sampleClient.NewRequest "GET" "orgs/100%/teams" Body.nil 1
        = (("GET " ++ "orgs/100%/teams", some "invalid URL escape"), 1) ∧
      (OrganizationsService.ListTeams sampleClient "100%" ⟨1, []⟩).1.2 = some "invalid URL escape" ∧
      (OrganizationsService.ListTeams sampleClient "100%" ⟨1, []⟩).2.trace
        = [Call.newRequest "GET" "orgs/100%/teams" Body.nil] ∧
      (OrganizationsService.ListTeams sampleClient "100%" ⟨1, []⟩).2.world = 1 ∧
      (OrganizationsService.ListTeams sampleClient "100%" ⟨1, []⟩).1.1 = none) ∧
    (sampleClient.NewRequest "PUT" "teams/42/members/100%" Body.nil 1
        = (("PUT " ++ "teams/42/members/100%", some "invalid URL escape"), 1) ∧
      (OrganizationsService.AddTeamMember sampleClient 42 "100%" ⟨1, []⟩).1 = some "invalid URL escape" ∧
      (OrganizationsService.AddTeamMember sampleClient 42 "100%" ⟨1, []⟩).2.trace
        = [Call.newRequest "PUT" "teams/42/members/100%" Body.nil] ∧
      (OrganizationsService.AddTeamMember sampleClient 42 "100%" ⟨1, []⟩).2.world = 1) ∧
    (sampleClient.NewRequest "DELETE" "teams/0/members/100%" Body.nil 1
        = (("DELETE " ++ "teams/0/members/100%", some "invalid URL escape"), 1) ∧
      (OrganizationsService.RemoveTeamMember sampleClient 0 "100%" ⟨1, []⟩).1 = some "invalid URL escape" ∧
      (OrganizationsService.RemoveTeamMember sampleClient 0 "100%" ⟨1, []⟩).2.trace
        = [Call.newRequest "DELETE" "teams/0/members/100%" Body.nil] ∧
      (OrganizationsService.RemoveTeamMember sampleClient 0 "100%" ⟨1, []⟩).2.world = 1) ∧
    (sampleClient.NewRequest "PUT" "orgs/acme/public_members/100%" Body.nil 1
        = (("PUT " ++ "orgs/acme/public_members/100%", some "invalid URL escape"), 1) ∧
      (OrganizationsService.PublicizeMembership sampleClient "acme" "100%" ⟨1, []⟩).1 = some "invalid URL escape" ∧
      (OrganizationsService.PublicizeMembership sampleClient "acme" "100%" ⟨1, []⟩).2.trace
        = [Call.newRequest "PUT" "orgs/acme/public_members/100%" Body.nil] ∧
      (OrganizationsService.PublicizeMembership sampleClient "acme" "100%" ⟨1, []⟩).2.world = 1) ∧
    (sampleClient.NewRequest "DELETE" "orgs/100%/public_members/bob" Body.nil 1
        = (("DELETE " ++ "orgs/100%/public_members/bob", some "invalid URL escape"), 1) ∧
      (OrganizationsService.ConcealMembership sampleClient "100%" "bob" ⟨1, []⟩).1 = some "invalid URL escape" ∧
      (OrganizationsService.ConcealMembership sampleClient "100%" "bob" ⟨1, []⟩).2.trace
        = [Call.newRequest "DELETE" "orgs/100%/public_members/bob" Body.nil] ∧
      (OrganizationsService.ConcealMembership sampleClient "100%" "bob" ⟨1, []⟩).2.world = 1) :=
  ⟨⟨rfl, (request_error_returned_without_do sampleClient ⟨1, []⟩).1 "100%" _ _ _ rfl⟩,
   ⟨rfl, (request_error_returned_without_do sampleClient ⟨1, []⟩).2.1 "100%" _ _ _ rfl⟩,
   ⟨rfl, (request_error_returned_without_do sampleClient ⟨1, []⟩).2.2.1 "100%" none _ _ _ rfl⟩,
   ⟨rfl, (request_error_returned_without_do sampleClient ⟨1, []⟩).2.2.2.1 "100%" _ _ _ rfl⟩,
   ⟨rfl, (request_error_returned_without_do sampleClient ⟨1, []⟩).2.2.2.2.1 "100%" _ _ _ rfl⟩,
   ⟨rfl, (request_error_returned_without_do sampleClient ⟨1, []⟩).2.2.2.2.2.1 "100%" _ _ _ rfl⟩,
   ⟨rfl, ((request_error_returned_without_do sampleClient ⟨1, []⟩).2.2.2.2.2.2.1 42 "100%" _ _ _ rfl).1,
      ((request_error_returned_without_do sampleClient ⟨1, []⟩).2.2.2.2.2.2.1 42 "100%" _ _ _ rfl).2.1,
      ((request_error_returned_without_do sampleClient ⟨1, []⟩).2.2.2.2.2.2.1 42 "100%" _ _ _ rfl).2.2.1⟩,
   ⟨rfl, ((request_error_returned_without_do sampleClient ⟨1, []⟩).2.2.2.2.2.2.2.1 0 "100%" _ _ _ rfl).1,
      ((request_error_returned_without_do sampleClient ⟨1, []⟩).2.2.2.2.2.2.2.1 0 "100%" _ _ _ rfl).2.1,
      ((request_error_returned_without_do sampleClient ⟨1, []⟩).2.2.2.2.2.2.2.1 0 "100%" _ _ _ rfl).2.2.1⟩,
   ⟨rfl, ((request_error_returned_without_do sampleClient ⟨1, []⟩).2.2.2.2.2.2.2.2.1 "acme" "100%" _ _ _ rfl).1,
      ((request_error_returned_without_do sampleClient ⟨1, []⟩).2.2.2.2.2.2.2.2.1 "acme" "100%" _ _ _ rfl).2.1,
      ((request_error_returned_without_do sampleClient ⟨1, []⟩).2.2.2.2.2.2.2.2.1 "acme" "100%" _ _ _ rfl).2.2.1⟩,
   ⟨rfl, ((request_error_returned_without_do sampleClient ⟨1, []⟩).2.2.2.2.2.2.2.2.2 "100%" "bob" _ _ _ rfl).1,
      ((request_error_returned_without_do sampleClient ⟨1, []⟩).2.2.2.2.2.2.2.2.2 "100%" "bob" _ _ _ rfl).2.1,
      ((request_error_returned_without_do sampleClient ⟨1, []⟩).2.2.2.2.2.2.2.2.2 "100%" "bob" _ _ _ rfl).2.2.1⟩⟩

theorem get_returns_decoded_organization_witness :
    sampleClient.NewRequest "GET" "orgs/acme" Body.nil 1 = (("GET orgs/acme", none), 1) ∧
    sampleClient.Do "GET orgs/acme" TargetKind.organization ⟨"", 0, "", "", ""⟩ 1
      = (((), none), ⟨"acme", 7, "https://api/orgs/acme", "", "Paris"⟩, 0) ∧
    (OrganizationsService.Get sampleClient "acme" ⟨1, []⟩).1
      = (some ⟨"acme", 7, "https://api/orgs/acme", "", "Paris"⟩, none) ∧
    (OrganizationsService.Get sampleClient "acme" ⟨1, []⟩).2.trace
      = [Call.newRequest "GET" "orgs/acme" Body.nil,
          Call.doRequest "GET orgs/acme" TargetKind.organization ⟨"", 0, "", "", ""⟩] :=
  ⟨rfl, rfl,
    (get_returns_decoded_organization sampleClient "acme" ⟨1, []⟩).2
      "GET orgs/acme" 1 () ⟨"acme", 7, "https://api/orgs/acme", "", "Paris"⟩ 0 rfl rfl⟩

theorem edit_patches_and_returns_decoded_witness :
    sampleClient.NewRequest "PATCH" "orgs/acme"
        (Body.organization (some ⟨"other", 0, "", "", "Lyon"⟩)) 1
      = (("PATCH orgs/acme", none), 1) ∧
    sampleClient.Do "PATCH orgs/acme" TargetKind.organization ⟨"", 0, "", "", ""⟩ 1
      = (((), none), ⟨"acme", 7, "https://api/orgs/acme", "", "Paris"⟩, 0) ∧
    (OrganizationsService.Edit sampleClient "acme" (some ⟨"other", 0, "", "", "Lyon"⟩) ⟨1, []⟩).1
      = (some ⟨"acme", 7, "https://api/orgs/acme", "", "Paris"⟩, none) ∧
    (OrganizationsService.Edit sampleClient "acme" (some ⟨"other", 0, "", "", "Lyon"⟩) ⟨1, []⟩).2.trace
      = [Call.newRequest "PATCH" "orgs/acme" (Body.organization (some ⟨"other", 0, "", "", "Lyon"⟩)),
          Call.doRequest "PATCH orgs/acme" TargetKind.organization ⟨"", 0, "", "", ""⟩] :=
  ⟨rfl, rfl,
    (edit_patches_and_returns_decoded sampleClient "acme" (some ⟨"other", 0, "", "", "Lyon"⟩)
      ⟨1, []⟩).2
      "PATCH orgs/acme" 1 () ⟨"acme", 7, "https://api/orgs/acme", "", "Paris"⟩ 0 rfl rfl⟩

theorem addTeamMember_puts_and_returns_error_only_witness :
    sampleClient.NewRequest "PUT" "teams/42/members/bob" Body.nil 1
      = (("PUT teams/42/members/bob", none), 1) ∧
    (OrganizationsService.AddTeamMember sampleClient 42 "bob" ⟨1, []⟩).2.trace
      = [Call.newRequest "PUT" "teams/42/members/bob" Body.nil,
          Call.doRequest "PUT teams/42/members/bob" TargetKind.nil ()] ∧
    (OrganizationsService.AddTeamMember sampleClient 42 "bob" ⟨1, []⟩).1 = none :=
  ⟨rfl,
    (addTeamMember_puts_and_returns_error_only sampleClient 42 "bob" ⟨1, []⟩).2.1
      "PUT teams/42/members/bob" 1 rfl,
    (addTeamMember_puts_and_returns_error_only sampleClient 42 "bob" ⟨1, []⟩).2.2.1.mpr
      ⟨"PUT teams/42/members/bob", 1, rfl, rfl⟩⟩

theorem paths_splice_arguments_unescaped_witness :
    "bob" ≠ "" ∧
    Builds ⟨1, []⟩ (OrganizationsService.List sampleClient "bob" ⟨1, []⟩).2 "GET"
      "users/bob/orgs" Body.nil ∧
    ¬ Builds ⟨1, []⟩ (OrganizationsService.List sampleClient "bob" ⟨1, []⟩).2 "GET"
      "user/orgs" Body.nil :=
  ⟨by decide,
    (paths_splice_arguments_unescaped sampleClient ⟨1, []⟩).1.1 "bob" (by decide),
    (paths_splice_arguments_unescaped sampleClient ⟨1, []⟩).2.2.2 "bob" (by decide)
      "GET" Body.nil⟩

theorem do_error_keeps_decode_target_witness :
    (sampleClient.NewRequest "GET" "orgs/acme" Body.nil 0 = (("GET orgs/acme", none), 0) ∧
      sampleClient.Do "GET orgs/acme" TargetKind.organization Organization.zero 0
        = (((), some "connection refused"), Organization.zero, 0) ∧
      (OrganizationsService.Get sampleClient "acme" ⟨0, []⟩).1
        = (some ⟨"", 0, "", "", ""⟩, some "connection refused")) ∧
    (sampleClient.NewRequest "PATCH" "orgs/acme"
          (Body.organization (some ⟨"other", 0, "", "", "Lyon"⟩)) 0
        = (("PATCH orgs/acme", none), 0) ∧
      (OrganizationsService.Edit sampleClient "acme" (some ⟨"other", 0, "", "", "Lyon"⟩)
          ⟨0, []⟩).1
        = (some ⟨"", 0, "", "", ""⟩, some "connection refused")) ∧
    (sampleClient.NewRequest "GET" "user/orgs" Body.nil 0 = (("GET user/orgs", none), 0) ∧
      (OrganizationsService.List sampleClient "" ⟨0, []⟩).1
        = (none, some "connection refused")) ∧
    (sampleClient.NewRequest "GET" "orgs/acme/members" Body.nil 0
        = (("GET orgs/acme/members", none), 0) ∧
      (OrganizationsService.ListMembers sampleClient "acme" ⟨0, []⟩).1
        = (none, some "connection refused")) ∧
    (sampleClient.NewRequest "GET" "orgs/acme/public_members" Body.nil 0
        = (("GET orgs/acme/public_members", none), 0) ∧
      (OrganizationsService.ListPublicMembers sampleClient "acme" ⟨0, []⟩).1
        = (none, some "connection refused")) ∧
    (sampleClient.NewRequest "GET" "orgs/acme/teams" Body.nil 0
        = (("GET orgs/acme/teams", none), 0) ∧
      (OrganizationsService.ListTeams sampleClient "acme" ⟨0, []⟩).1
        = (none, some "connection refused")) ∧
    (sampleClient.NewRequest "GET" "orgs/100%" Body.nil 0
        = (("GET orgs/100%", some "invalid URL escape"), 0) ∧
      (OrganizationsService.Get sampleClient "100%" ⟨0, []⟩).1.1 = none) ∧
    (sampleClient.NewRequest "PATCH" "orgs/100%" (Body.organization none) 0
        = (("PATCH orgs/100%", some "invalid URL escape"), 0) ∧
      (OrganizationsService.Edit sampleClient "100%" none ⟨0, []⟩).1.1 = none) :=
  ⟨⟨rfl, rfl, (do_error_keeps_decode_target sampleClient ⟨0, []⟩).1
      "acme" "GET orgs/acme" 0 () "connection refused" Organization.zero 0 rfl rfl⟩,
   ⟨rfl, (do_error_keeps_decode_target sampleClient ⟨0, []⟩).2.1
      "acme" (some ⟨"other", 0, "", "", "Lyon"⟩) "PATCH orgs/acme" 0 ()
      "connection refused" Organization.zero 0 rfl rfl⟩,
   ⟨rfl, (do_error_keeps_decode_target sampleClient ⟨0, []⟩).2.2.1
      "" "GET user/orgs" 0 () "connection refused" none 0 rfl rfl⟩,
   ⟨rfl, (do_error_keeps_decode_target sampleClient ⟨0, []⟩).2.2.2.1
      "acme" "GET orgs/acme/members" 0 () "connection refused" none 0 rfl rfl⟩,
   ⟨rfl, (do_error_keeps_decode_target sampleClient ⟨0, []⟩).2.2.2.2.1
      "acme" "GET orgs/acme/public_members" 0 () "connection refused" none 0 rfl rfl⟩,
   ⟨rfl, (do_error_keeps_decode_target sampleClient ⟨0, []⟩).2.2.2.2.2.1
      "acme" "GET orgs/acme/teams" 0 () "connection refused" none 0 rfl rfl⟩,
   ⟨rfl, ((do_error_keeps_decode_target sampleClient ⟨0, []⟩).2.2.2.2.2.2.1 "100%").mpr
      ⟨"GET orgs/100%", "invalid URL escape", 0, rfl⟩⟩,
   ⟨rfl, ((do_error_keeps_decode_target sampleClient ⟨0, []⟩).2.2.2.2.2.2.2 "100%" none).mpr
      ⟨"PATCH orgs/100%", "invalid URL escape", 0, rfl⟩⟩⟩

theorem membership_pairs_differ_only_in_verb_witness :
    (sampleClient.NewRequest "PUT" "orgs/acme/public_members/bob" Body.nil 1
        = (("PUT orgs/acme/public_members/bob", none), 1) ∧
      (OrganizationsService.PublicizeMembership sampleClient "acme" "bob" ⟨1, []⟩).2.trace
        = [Call.newRequest "PUT" "orgs/acme/public_members/bob" Body.nil,
            Call.doRequest "PUT orgs/acme/public_members/bob" TargetKind.nil ()]) ∧
    (sampleClient.NewRequest "DELETE" "orgs/acme/public_members/bob" Body.nil 1
        = (("DELETE orgs/acme/public_members/bob", none), 1) ∧
      (OrganizationsService.ConcealMembership sampleClient "acme" "bob" ⟨1, []⟩).2.trace
        = [Call.newRequest "DELETE" "orgs/acme/public_members/bob" Body.nil,
            Call.doRequest "DELETE orgs/acme/public_members/bob" TargetKind.nil ()]) ∧
    (sampleClient.NewRequest "PUT" "teams/42/members/bob" Body.nil 1
        = (("PUT teams/42/members/bob", none), 1) ∧
      (OrganizationsService.AddTeamMember sampleClient 42 "bob" ⟨1, []⟩).2.trace
        = [Call.newRequest "PUT" "teams/42/members/bob" Body.nil,
            Call.doRequest "PUT teams/42/members/bob" TargetKind.nil ()]) ∧
    (sampleClient.NewRequest "DELETE" "teams/42/members/bob" Body.nil 1
        = (("DELETE teams/42/members/bob", none), 1) ∧
      (OrganizationsService.RemoveTeamMember sampleClient 42 "bob" ⟨1, []⟩).2.trace
        = [Call.newRequest "DELETE" "teams/42/members/bob" Body.nil,
            Call.doRequest "DELETE teams/42/members/bob" TargetKind.nil ()]) :=
  ⟨⟨rfl, (membership_pairs_differ_only_in_verb sampleClient "acme" "bob" 42 ⟨1, []⟩).1.2.2.2.2.1
      "PUT orgs/acme/public_members/bob" 1 rfl⟩,
   ⟨rfl, (membership_pairs_differ_only_in_verb sampleClient "acme" "bob" 42 ⟨1, []⟩).1.2.2.2.2.2
      "DELETE orgs/acme/public_members/bob" 1 rfl⟩,
   ⟨rfl, (membership_pairs_differ_only_in_verb sampleClient "acme" "bob" 42 ⟨1, []⟩).2.1.2.2.2.2.1
      "PUT teams/42/members/bob" 1 rfl⟩,
   ⟨rfl, (membership_pairs_differ_only_in_verb sampleClient "acme" "bob" 42 ⟨1, []⟩).2.1.2.2.2.2.2
      "DELETE teams/42/members/bob" 1 rfl⟩⟩
